import Mathlib

/-!
Shallow embedding of the DS1307 real-time-clock driver (`src/ds1307.c`).

Bytes are modelled as `Nat` with explicit `% 256` (or masking) wherever the C
code's `uint8_t` arithmetic can wrap.  C `int` values (`struct tm` fields,
the century configuration) are modelled as `Int`; the implicit C conversion
from `int` to `uint8_t` is the explicit `toByte` below.  The I2C bus is
modelled as a register image (`Regs`) plus a trace of bus transactions
(`Txn`); every driver operation is a pure function from the register image
to an `Except` result, the updated image where it writes, and its
transaction list.  Null pointer arguments are modelled as `none` (for
handles and input structures) or a `Bool` validity flag (for out-pointers).
-/

/-- ESP-IDF error codes returned by the driver (besides `ESP_OK`,
which is modelled by `Except.ok`). -/
inductive EspErr where
  | ESP_ERR_INVALID_ARG : EspErr
  | ESP_ERR_NO_MEM : EspErr
deriving DecidableEq, Repr

/-- A bus transaction: a register read (`i2c_master_transmit_receive` of a
register address followed by `len` bytes), a raw transmit of a buffer whose
first byte is the register address, or the deinit-time device removal. -/
inductive Txn where
  | read : Nat → Nat → Txn
  | write : List Nat → Txn
  | rmDevice : Txn
deriving DecidableEq, Repr

/-- The chip's eight time/control registers (addresses 0x00-0x07); each field
holds one byte.  The 56-byte RAM block is not part of any claim's data flow
and is left out of the image (the RAM operations only produce transactions). -/
structure Regs where
  sec : Nat
  min : Nat
  hour : Nat
  day : Nat
  date : Nat
  mon : Nat
  year : Nat
  ctrl : Nat
deriving DecidableEq, Repr

/-- Read one register byte by address, as the chip would serve it. -/
def Regs.get (r : Regs) (i : Nat) : Nat :=
  match i with
  | 0 => r.sec
  | 1 => r.min
  | 2 => r.hour
  | 3 => r.day
  | 4 => r.date
  | 5 => r.mon
  | 6 => r.year
  | 7 => r.ctrl
  | _ => 0

/-- Write one register byte by address. -/
def Regs.set (r : Regs) (i : Nat) (v : Nat) : Regs :=
  match i with
  | 0 => { r with sec := v }
  | 1 => { r with min := v }
  | 2 => { r with hour := v }
  | 3 => { r with day := v }
  | 4 => { r with date := v }
  | 5 => { r with mon := v }
  | 6 => { r with year := v }
  | 7 => { r with ctrl := v }
  | _ => r

/-- `struct ds1307_t`: the handle owns the century base `tm_year_start`
(the bus device capability is implicit in the transaction model). -/
structure ds1307_t where
  tm_year_start : Int
deriving DecidableEq, Repr

/-- `ds1307_config_t`: only the `century` field is semantically relevant. -/
structure ds1307_config_t where
  century : Int
deriving DecidableEq, Repr

/-- The seven `struct tm` fields the driver reads and writes (all C `int`). -/
structure Tm where
  tm_sec : Int
  tm_min : Int
  tm_hour : Int
  tm_mday : Int
  tm_mon : Int
  tm_year : Int
  tm_wday : Int
deriving DecidableEq, Repr

/-- `ds1307_data_t`: raw register-shaped view; `hour_12` and `hour_pm` are
the two 1-bit bitfields (held as 0 or 1). -/
structure ds1307_data_t where
  second : Nat
  minute : Nat
  hour : Nat
  day : Nat
  date : Nat
  month : Nat
  year : Nat
  hour_12 : Nat
  hour_pm : Nat
deriving DecidableEq, Repr

/-- C conversion from `int` to `uint8_t` (reduction modulo 2^8). -/
def toByte (i : Int) : Nat := (i % 256).toNat

/-- `int2bcd`: `((x / 10) << 4) + (x % 10)` on `uint8_t`. -/
def int2bcd (x : Nat) : Nat := (((x / 10) <<< 4) + x % 10) % 256

/-- `bcd2int`: `(x >> 4) * 10 + (x & 0x0f)` on `uint8_t`. -/
def bcd2int (x : Nat) : Nat := ((x >>> 4) * 10 + (x &&& 0x0f)) % 256

/-- Register bit constants from the source macros. -/
def SEC_CH_BIT : Nat := 0x80
def SEC_MASK : Nat := 0x7f
def HOUR_12_BIT : Nat := 0x40
def HOUR_PM_BIT : Nat := 0x20
def HOUR_12_MASK : Nat := 0x1f
def CTRL_OUT_BIT : Nat := 0x80
def CTRL_SQWE_BIT : Nat := 0x10
def CTRL_RS_MASK : Nat := 0x3
def RAM_REG : Nat := 8
def DS1307_RAM_SIZE : Nat := 56

/-- `from_12_hour`: decode a 12-hour-mode hours register byte to 0-23. -/
def from_12_hour (hour_bcd : Nat) : Nat :=
  let hour := bcd2int (hour_bcd &&& HOUR_12_MASK)
  let hour := if hour = 12 then 0 else hour
  if hour_bcd &&& HOUR_PM_BIT ≠ 0 then (hour + 12) % 256 else hour

/-- `to_12_hour`: encode an hour 0-23 as a 12-hour-mode register byte with
the mode bit and, when applicable, the PM bit set. -/
def to_12_hour (hour : Nat) : Nat :=
  let p := if hour ≥ 12 then (hour - 12, HOUR_PM_BIT) else (hour, 0)
  let hour := if p.1 = 0 then 12 else p.1
  ((int2bcd hour &&& HOUR_12_MASK) ||| HOUR_12_BIT) ||| p.2

/-- `ds1307_init`: century normalization and year-base computation (the
success path of allocation and bus attach; null bus / null config return
`ESP_ERR_INVALID_ARG` as in the source). -/
def ds1307_init (bus : Option Unit) (config : Option ds1307_config_t) :
    Except EspErr ds1307_t :=
  match bus with
  | none => .error .ESP_ERR_INVALID_ARG
  | some _ =>
    match config with
    | none => .error .ESP_ERR_INVALID_ARG
    | some cfg =>
      let century := cfg.century
      let century := if century = 0 then 21 else if century < 0 then century + 1 else century
      .ok { tm_year_start := (century - 20) * 100 }

/-- `ds1307_deinit`: null handle returns `ESP_ERR_NO_MEM`; otherwise the
device is removed from the bus. -/
def ds1307_deinit (handle : Option ds1307_t) : Except EspErr Unit × List Txn :=
  match handle with
  | none => (.error .ESP_ERR_NO_MEM, [])
  | some _ => (.ok (), [.rmDevice])

/-- `ds1307_get_datetime`: one 7-byte read, full BCD/12-hour decode.
`tm_ok` is whether the out-pointer is non-null. -/
def ds1307_get_datetime (handle : Option ds1307_t) (tm_ok : Bool) (regs : Regs) :
    Except EspErr Tm × List Txn :=
  match handle with
  | none => (.error .ESP_ERR_NO_MEM, [])
  | some h =>
    if !tm_ok then (.error .ESP_ERR_NO_MEM, [])
    else
      (.ok {
        tm_sec := (bcd2int (regs.sec &&& SEC_MASK) : Int)
        tm_min := (bcd2int regs.min : Int)
        tm_hour := if regs.hour &&& HOUR_12_BIT ≠ 0 then
            (from_12_hour regs.hour : Int)
          else
            (bcd2int regs.hour : Int)
        tm_wday := (bcd2int regs.day : Int) - 1
        tm_mday := (bcd2int regs.date : Int)
        tm_mon := (bcd2int regs.mon : Int)
        tm_year := (bcd2int regs.year : Int) + h.tm_year_start
      }, [.read 0 7])

/-- `ds1307_set_datetime`: reads back 3 bytes (seconds..hours) to capture
the CH bit and the 12/24 mode bit, then writes all 7 time registers. -/
def ds1307_set_datetime (handle : Option ds1307_t) (tm : Option Tm) (regs : Regs) :
    Except EspErr Regs × List Txn :=
  match handle with
  | none => (.error .ESP_ERR_NO_MEM, [])
  | some _ =>
    match tm with
    | none => (.error .ESP_ERR_NO_MEM, [])
    | some t =>
      let ch := regs.sec &&& SEC_CH_BIT
      let hour_12 := regs.hour &&& HOUR_12_BIT
      let b1 := (int2bcd (toByte t.tm_sec) &&& SEC_MASK) ||| ch
      let b2 := int2bcd (toByte t.tm_min)
      let b3 := if hour_12 ≠ 0 then to_12_hour (toByte t.tm_hour)
                else int2bcd (toByte t.tm_hour)
      let b4 := int2bcd (toByte (t.tm_wday + 1))
      let b5 := int2bcd (toByte t.tm_mday)
      let b6 := int2bcd (toByte (t.tm_mon + 1))
      let y0 := Int.tmod t.tm_year 100
      let y := if y0 < 0 then y0 + 100 else y0
      let b7 := int2bcd (toByte y)
      (.ok { sec := b1, min := b2, hour := b3, day := b4, date := b5,
             mon := b6, year := b7, ctrl := regs.ctrl },
       [.read 0 3, .write [0, b1, b2, b3, b4, b5, b6, b7]])

/-- `ds1307_get_data`: 7-byte read into the raw register-shaped view. -/
def ds1307_get_data (handle : Option ds1307_t) (data_ok : Bool) (regs : Regs) :
    Except EspErr ds1307_data_t × List Txn :=
  match handle with
  | none => (.error .ESP_ERR_NO_MEM, [])
  | some _ =>
    if !data_ok then (.error .ESP_ERR_NO_MEM, [])
    else
      let base : ds1307_data_t :=
        { second := regs.sec &&& SEC_MASK
          minute := regs.min
          hour := 0, day := regs.day, date := regs.date
          month := regs.mon, year := regs.year
          hour_12 := 0, hour_pm := 0 }
      let d := if regs.hour &&& HOUR_12_BIT ≠ 0 then
          { base with hour_12 := 1
                      hour_pm := if regs.hour &&& HOUR_PM_BIT ≠ 0 then 1 else 0
                      hour := regs.hour &&& HOUR_12_MASK }
        else
          { base with hour := regs.hour }
      (.ok d, [.read 0 7])

/-- `ds1307_set_data`: reads back one byte for the CH bit, then writes the
7 registers from the raw view, masking each field to its width. -/
def ds1307_set_data (handle : Option ds1307_t) (data : Option ds1307_data_t)
    (regs : Regs) : Except EspErr Regs × List Txn :=
  match handle with
  | none => (.error .ESP_ERR_NO_MEM, [])
  | some _ =>
    match data with
    | none => (.error .ESP_ERR_NO_MEM, [])
    | some d =>
      let ch := regs.sec &&& SEC_CH_BIT
      let b1 := (d.second &&& SEC_MASK) ||| ch
      let b2 := d.minute &&& 0x7f
      let b3 := if d.hour_12 ≠ 0 then
          ((d.hour &&& HOUR_12_MASK) ||| HOUR_12_BIT) |||
            (if d.hour_pm ≠ 0 then HOUR_PM_BIT else 0)
        else d.hour &&& 0x3f
      let b4 := d.day &&& 0x07
      let b5 := d.date &&& 0x3f
      let b6 := d.month &&& 0x1f
      let b7 := d.year
      (.ok { sec := b1, min := b2, hour := b3, day := b4, date := b5,
             mon := b6, year := b7, ctrl := regs.ctrl },
       [.read 0 1, .write [0, b1, b2, b3, b4, b5, b6, b7]])

/-- `ds1307_get_12_hour`: read the hours register, report the mode bit. -/
def ds1307_get_12_hour (handle : Option ds1307_t) (mode_ok : Bool) (regs : Regs) :
    Except EspErr Bool × List Txn :=
  match handle with
  | none => (.error .ESP_ERR_NO_MEM, [])
  | some _ =>
    if !mode_ok then (.error .ESP_ERR_NO_MEM, [])
    else (.ok (regs.hour &&& HOUR_12_BIT ≠ 0), [.read 2 1])

/-- `ds1307_set_12_hour`: if the stored mode already matches, stop after the
read; otherwise re-encode the hour through the 12-hour codec and write it. -/
def ds1307_set_12_hour (handle : Option ds1307_t) (mode : Bool) (regs : Regs) :
    Except EspErr Regs × List Txn :=
  match handle with
  | none => (.error .ESP_ERR_NO_MEM, [])
  | some _ =>
    let hour := regs.hour
    if hour &&& HOUR_12_BIT = (if mode then HOUR_12_BIT else 0) then
      (.ok regs, [.read 2 1])
    else
      let hour := if mode then to_12_hour (bcd2int hour)
                  else int2bcd (from_12_hour hour)
      (.ok { regs with hour := hour }, [.read 2 1, .write [2, hour]])

/-- `set_reg`: read-check-write on one register.  `mask` is the `uint8_t`
preserve mask as passed in the source; the skip test `origin & ~mask` is
`origin &&& (255 ^^^ mask)` for byte-valued registers. -/
def set_reg (handle : Option ds1307_t) (reg mask value : Nat) (regs : Regs) :
    Except EspErr Regs × List Txn :=
  match handle with
  | none => (.error .ESP_ERR_NO_MEM, [])
  | some _ =>
    let origin := regs.get reg
    if origin &&& (255 ^^^ mask) = value then (.ok regs, [.read reg 1])
    else
      let v := (origin &&& mask) ||| value
      (.ok (regs.set reg v), [.read reg 1, .write [reg, v]])

/-- `ds1307_get_halt`: read the seconds register, report the CH bit. -/
def ds1307_get_halt (handle : Option ds1307_t) (halt_ok : Bool) (regs : Regs) :
    Except EspErr Bool × List Txn :=
  match handle with
  | none => (.error .ESP_ERR_NO_MEM, [])
  | some _ =>
    if !halt_ok then (.error .ESP_ERR_NO_MEM, [])
    else (.ok (regs.sec &&& SEC_CH_BIT ≠ 0), [.read 0 1])

/-- `ds1307_set_halt`: `set_reg` on the seconds register with mask
`(uint8_t)~SEC_CH_BIT = 0x7f`. -/
def ds1307_set_halt (handle : Option ds1307_t) (halt : Bool) (regs : Regs) :
    Except EspErr Regs × List Txn :=
  set_reg handle 0 0x7f (if halt then SEC_CH_BIT else 0) regs

/-- `ds1307_get_output`: read the control register, report the OUT bit. -/
def ds1307_get_output (handle : Option ds1307_t) (out_ok : Bool) (regs : Regs) :
    Except EspErr Bool × List Txn :=
  match handle with
  | none => (.error .ESP_ERR_NO_MEM, [])
  | some _ =>
    if !out_ok then (.error .ESP_ERR_NO_MEM, [])
    else (.ok (regs.ctrl &&& CTRL_OUT_BIT ≠ 0), [.read 7 1])

/-- `ds1307_set_output`: `set_reg` on control with mask `0x7f`. -/
def ds1307_set_output (handle : Option ds1307_t) (output : Bool) (regs : Regs) :
    Except EspErr Regs × List Txn :=
  set_reg handle 7 0x7f (if output then CTRL_OUT_BIT else 0) regs

/-- `ds1307_get_square_wave_enable`: report the SQWE bit. -/
def ds1307_get_square_wave_enable (handle : Option ds1307_t) (en_ok : Bool)
    (regs : Regs) : Except EspErr Bool × List Txn :=
  match handle with
  | none => (.error .ESP_ERR_NO_MEM, [])
  | some _ =>
    if !en_ok then (.error .ESP_ERR_NO_MEM, [])
    else (.ok (regs.ctrl &&& CTRL_SQWE_BIT ≠ 0), [.read 7 1])

/-- `ds1307_set_square_wave_enable`: `set_reg` on control with mask
`(uint8_t)~CTRL_SQWE_BIT = 0xef`. -/
def ds1307_set_square_wave_enable (handle : Option ds1307_t) (enable : Bool)
    (regs : Regs) : Except EspErr Regs × List Txn :=
  set_reg handle 7 0xef (if enable then CTRL_SQWE_BIT else 0) regs

/-- `ds1307_get_rate_select`: report the two rate-select bits. -/
def ds1307_get_rate_select (handle : Option ds1307_t) (rs_ok : Bool) (regs : Regs) :
    Except EspErr Nat × List Txn :=
  match handle with
  | none => (.error .ESP_ERR_NO_MEM, [])
  | some _ =>
    if !rs_ok then (.error .ESP_ERR_NO_MEM, [])
    else (.ok (regs.ctrl &&& CTRL_RS_MASK), [.read 7 1])

/-- `ds1307_set_rate_select`: `set_reg` on control with mask
`(uint8_t)~CTRL_RS_MASK = 0xfc` and value `rs & 0x3`. -/
def ds1307_set_rate_select (handle : Option ds1307_t) (rs : Nat) (regs : Regs) :
    Except EspErr Regs × List Txn :=
  set_reg handle 7 0xfc (rs &&& CTRL_RS_MASK) regs

/-- `ds1307_get_ram`: bound check `offset + size <= 56` (computed after C
integer promotion, so without 8-bit wraparound), then one read at absolute
address `offset + RAM_REG`. -/
def ds1307_get_ram (handle : Option ds1307_t) (offset : Nat) (data_ok : Bool)
    (size : Nat) : Except EspErr Unit × List Txn :=
  match handle with
  | none => (.error .ESP_ERR_NO_MEM, [])
  | some _ =>
    if !data_ok then (.error .ESP_ERR_NO_MEM, [])
    else if ¬ (offset + size ≤ DS1307_RAM_SIZE) then (.error .ESP_ERR_INVALID_ARG, [])
    else (.ok (), [.read ((offset + RAM_REG) % 256) size])

/-- `ds1307_set_ram`: same bound check, then one transmit of the address
byte followed by `size` data bytes. -/
def ds1307_set_ram (handle : Option ds1307_t) (offset : Nat)
    (data : Option (List Nat)) (size : Nat) : Except EspErr Unit × List Txn :=
  match handle with
  | none => (.error .ESP_ERR_NO_MEM, [])
  | some _ =>
    match data with
    | none => (.error .ESP_ERR_NO_MEM, [])
    | some bytes =>
      if ¬ (offset + size ≤ DS1307_RAM_SIZE) then (.error .ESP_ERR_INVALID_ARG, [])
      else (.ok (), [.write (((offset + RAM_REG) % 256) :: bytes.take size)])

/-- The 12-hour codec round-trips every hour of the day (shared helper). -/
theorem round_trip_12 : ∀ h < 24, from_12_hour (to_12_hour h) = h := by decide

/-- C2: for every hour h in 0-23, decoding the 12-hour encoding of h yields
h back: `from_12_hour (to_12_hour h) = h`, covering the 12-AM-is-hour-0 and
12-PM special cases. -/
theorem claim_c2_hour_codec_inverse (h : Nat) (hh : h < 24) :
    from_12_hour (to_12_hour h) = h :=
  round_trip_12 h hh

/-- C2 witness: the round-trip evaluated at hour 0 (the 12-AM case). -/
theorem claim_c2_hour_codec_inverse_witness :
    0 < 24 ∧ from_12_hour (to_12_hour 0) = 0 :=
  ⟨by decide, claim_c2_hour_codec_inverse 0 (by decide)⟩

/-- The year-base computation as the spec's words describe it: century 0 is
replaced by 21, a negative century is incremented by one, and the base is
`(century - 20) * 100`. -/
def year_base_spec (century : Int) : Int :=
  if century = 0 then (21 - 20) * 100
  else if century < 0 then (century + 1 - 20) * 100
  else (century - 20) * 100

/-- C5: for every century value, init's year base follows the literal
normalization arithmetic; century 0 and 21 both give base 100, and
century 1 gives a negative base (-1900). -/
theorem claim_c5_century_normalization :
    (∀ c : Int, ds1307_init (some ()) (some ⟨c⟩) = .ok ⟨year_base_spec c⟩) ∧
    ds1307_init (some ()) (some ⟨0⟩) = .ok ⟨100⟩ ∧
    ds1307_init (some ()) (some ⟨21⟩) = .ok ⟨100⟩ ∧
    (∃ b : Int, ds1307_init (some ()) (some ⟨1⟩) = .ok ⟨b⟩ ∧ b < 0) := by
  refine ⟨fun c => ?_, rfl, rfl, ⟨-1900, by norm_num [ds1307_init], by decide⟩⟩
  simp only [ds1307_init, year_base_spec]
  split_ifs <;> rfl

/-- C6: the RAM bound check fails with `ESP_ERR_INVALID_ARG` exactly when
`offset + size > 56` (no 8-bit wraparound), is inclusive at 56, and
otherwise the operation proceeds to its bus transaction; in particular
offset 40 / size 16 passes and offset 50 / size 10 fails, for both
`ds1307_get_ram` and `ds1307_set_ram`. -/
theorem claim_c6_ram_bound (hd : ds1307_t) (offset size : Nat) (bytes : List Nat)
    (ho : offset ≤ 255) (hs : size ≤ 255) :
    ((ds1307_get_ram (some hd) offset true size).1 = .error .ESP_ERR_INVALID_ARG
      ↔ 56 < offset + size) ∧
    ((ds1307_set_ram (some hd) offset (some bytes) size).1 = .error .ESP_ERR_INVALID_ARG
      ↔ 56 < offset + size) ∧
    (offset + size ≤ 56 →
      ds1307_get_ram (some hd) offset true size =
        (.ok (), [.read ((offset + 8) % 256) size]) ∧
      ds1307_set_ram (some hd) offset (some bytes) size =
        (.ok (), [.write (((offset + 8) % 256) :: bytes.take size)])) ∧
    (ds1307_get_ram (some hd) 40 true 16).1 = .ok () ∧
    (ds1307_get_ram (some hd) 50 true 10).1 = .error .ESP_ERR_INVALID_ARG ∧
    (ds1307_set_ram (some hd) 40 (some bytes) 16).1 = .ok () ∧
    (ds1307_set_ram (some hd) 50 (some bytes) 10).1 = .error .ESP_ERR_INVALID_ARG := by
  by_cases hb : offset + size ≤ 56 <;>
    simp [ds1307_get_ram, ds1307_set_ram, DS1307_RAM_SIZE, RAM_REG, hb] <;>
    omega

/-- C6 witness: the bound check evaluated at the inclusive boundary
offset 40, size 16. -/
theorem claim_c6_ram_bound_witness :
    40 ≤ 255 ∧ 16 ≤ 255 ∧
    (((ds1307_get_ram (some ⟨100⟩) 40 true 16).1 = .error .ESP_ERR_INVALID_ARG
       ↔ 56 < 40 + 16) ∧
     ((ds1307_set_ram (some ⟨100⟩) 40 (some [1, 2]) 16).1 = .error .ESP_ERR_INVALID_ARG
       ↔ 56 < 40 + 16) ∧
     (40 + 16 ≤ 56 →
       ds1307_get_ram (some ⟨100⟩) 40 true 16 = (.ok (), [.read ((40 + 8) % 256) 16]) ∧
       ds1307_set_ram (some ⟨100⟩) 40 (some [1, 2]) 16 =
         (.ok (), [.write (((40 + 8) % 256) :: [1, 2].take 16)])) ∧
     (ds1307_get_ram (some ⟨100⟩) 40 true 16).1 = .ok () ∧
     (ds1307_get_ram (some ⟨100⟩) 50 true 10).1 = .error .ESP_ERR_INVALID_ARG ∧
     (ds1307_set_ram (some ⟨100⟩) 40 (some [1, 2]) 16).1 = .ok () ∧
     (ds1307_set_ram (some ⟨100⟩) 50 (some [1, 2]) 10).1 = .error .ESP_ERR_INVALID_ARG) :=
  ⟨by decide, by decide,
   claim_c6_ram_bound ⟨100⟩ 40 16 [1, 2] (by decide) (by decide)⟩

/-- C4 counterexample: `ds1307_deinit` on a null handle fails with
`ESP_ERR_NO_MEM`, not `ESP_ERR_INVALID_ARG` as the claim states. -/
theorem claim_c4_counterexample :
    ds1307_deinit none = (.error .ESP_ERR_NO_MEM, []) ∧
    EspErr.ESP_ERR_NO_MEM ≠ EspErr.ESP_ERR_INVALID_ARG :=
  ⟨rfl, by decide⟩

/-- C4 (amended): every public operation called with a null handle or a null
required pointer fails with `ESP_ERR_NO_MEM` (the out-of-memory kind, not
`ESP_ERR_INVALID_ARG`) and performs no bus transaction; only `ds1307_init`'s
null bus/config checks return `ESP_ERR_INVALID_ARG`. -/
theorem claim_c4_null_argument_errors (hd : ds1307_t) (regs : Regs) (t : Tm)
    (d : ds1307_data_t) (b : Bool) (off sz rs : Nat) (bytes : List Nat) :
    ds1307_deinit none = (.error .ESP_ERR_NO_MEM, []) ∧
    ds1307_get_datetime none true regs = (.error .ESP_ERR_NO_MEM, []) ∧
    ds1307_get_datetime (some hd) false regs = (.error .ESP_ERR_NO_MEM, []) ∧
    ds1307_set_datetime none (some t) regs = (.error .ESP_ERR_NO_MEM, []) ∧
    ds1307_set_datetime (some hd) none regs = (.error .ESP_ERR_NO_MEM, []) ∧
    ds1307_get_data none true regs = (.error .ESP_ERR_NO_MEM, []) ∧
    ds1307_get_data (some hd) false regs = (.error .ESP_ERR_NO_MEM, []) ∧
    ds1307_set_data none (some d) regs = (.error .ESP_ERR_NO_MEM, []) ∧
    ds1307_set_data (some hd) none regs = (.error .ESP_ERR_NO_MEM, []) ∧
    ds1307_get_12_hour none true regs = (.error .ESP_ERR_NO_MEM, []) ∧
    ds1307_get_12_hour (some hd) false regs = (.error .ESP_ERR_NO_MEM, []) ∧
    ds1307_set_12_hour none b regs = (.error .ESP_ERR_NO_MEM, []) ∧
    ds1307_get_halt none true regs = (.error .ESP_ERR_NO_MEM, []) ∧
    ds1307_get_halt (some hd) false regs = (.error .ESP_ERR_NO_MEM, []) ∧
    ds1307_set_halt none b regs = (.error .ESP_ERR_NO_MEM, []) ∧
    ds1307_get_output none true regs = (.error .ESP_ERR_NO_MEM, []) ∧
    ds1307_get_output (some hd) false regs = (.error .ESP_ERR_NO_MEM, []) ∧
    ds1307_set_output none b regs = (.error .ESP_ERR_NO_MEM, []) ∧
    ds1307_get_square_wave_enable none true regs = (.error .ESP_ERR_NO_MEM, []) ∧
    ds1307_get_square_wave_enable (some hd) false regs = (.error .ESP_ERR_NO_MEM, []) ∧
    ds1307_set_square_wave_enable none b regs = (.error .ESP_ERR_NO_MEM, []) ∧
    ds1307_get_rate_select none true regs = (.error .ESP_ERR_NO_MEM, []) ∧
    ds1307_get_rate_select (some hd) false regs = (.error .ESP_ERR_NO_MEM, []) ∧
    ds1307_set_rate_select none rs regs = (.error .ESP_ERR_NO_MEM, []) ∧
    ds1307_get_ram none off true sz = (.error .ESP_ERR_NO_MEM, []) ∧
    ds1307_get_ram (some hd) off false sz = (.error .ESP_ERR_NO_MEM, []) ∧
    ds1307_set_ram none off (some bytes) sz = (.error .ESP_ERR_NO_MEM, []) ∧
    ds1307_set_ram (some hd) off none sz = (.error .ESP_ERR_NO_MEM, []) ∧
    ds1307_init none (some ⟨0⟩) = .error .ESP_ERR_INVALID_ARG ∧
    ds1307_init (some ()) none = .error .ESP_ERR_INVALID_ARG :=
  ⟨rfl, rfl, rfl, rfl, rfl, rfl, rfl, rfl, rfl, rfl, rfl, rfl, rfl, rfl, rfl,
   rfl, rfl, rfl, rfl, rfl, rfl, rfl, rfl, rfl, rfl, rfl, rfl, rfl, rfl, rfl⟩

/-- C1 at a concrete failing input: writing the calendar time
(sec 30, min 45, hour 15, mday 27, mon 5, year 125, wday 3) through a
century-21 handle onto a 24-hour, CH-clear image and reading it back
returns every field unchanged except the month, which comes back as 6:
`ds1307_set_datetime` stores `tm_mon + 1` on the wire but
`ds1307_get_datetime` does not subtract the 1 again. -/
theorem claim_c1_datetime_month_divergence :
    (ds1307_set_datetime (some ⟨100⟩) (some ⟨30, 45, 15, 27, 5, 125, 3⟩)
        ⟨0, 0, 0, 0, 0, 0, 0, 0⟩).1 =
      .ok ⟨48, 69, 21, 4, 39, 6, 37, 0⟩ ∧
    (ds1307_get_datetime (some ⟨100⟩) true ⟨48, 69, 21, 4, 39, 6, 37, 0⟩).1 =
      .ok ⟨30, 45, 15, 27, 6, 125, 3⟩ ∧
    (6 : Int) ≠ 5 := by
  refine ⟨rfl, rfl, by decide⟩

/-- OR-ing bit 7 into a 7-bit value makes bit 7 read back set (helper). -/
theorem or128_and128 : ∀ w ≤ 127, (w ||| 128) &&& 128 = 128 := by decide

/-- C7: after `ds1307_set_halt true` succeeds, `ds1307_get_halt` reports
true, and repeating `ds1307_set_halt true` issues only the register read
and no write, leaving the register image unchanged. -/
theorem claim_c7_set_halt_idempotent (hd : ds1307_t) (regs : Regs) :
    ∃ regs₂, (ds1307_set_halt (some hd) true regs).1 = .ok regs₂ ∧
      (ds1307_get_halt (some hd) true regs₂).1 = .ok true ∧
      ds1307_set_halt (some hd) true regs₂ = (.ok regs₂, [.read 0 1]) := by
  have hx : (255 ^^^ 127 : Nat) = 128 := by decide
  by_cases h : regs.sec &&& 128 = 128
  · refine ⟨regs, ?_, ?_, ?_⟩
    · simp [ds1307_set_halt, set_reg, Regs.get, SEC_CH_BIT, hx, h]
    · simp [ds1307_get_halt, SEC_CH_BIT, h]
    · simp [ds1307_set_halt, set_reg, Regs.get, SEC_CH_BIT, hx, h]
  · have hb : ((regs.sec &&& 127) ||| 128) &&& 128 = 128 :=
      or128_and128 (regs.sec &&& 127) Nat.and_le_right
    refine ⟨{ regs with sec := (regs.sec &&& 127) ||| 128 }, ?_, ?_, ?_⟩
    · simp [ds1307_set_halt, set_reg, Regs.get, Regs.set, SEC_CH_BIT, hx, h]
    · simp [ds1307_get_halt, SEC_CH_BIT, hb]
    · simp [ds1307_set_halt, set_reg, Regs.get, SEC_CH_BIT, hx, hb]

set_option maxRecDepth 10000 in
/-- The control-register read-modify-write value keeps every bit outside
the two rate-select bits and installs the new rate bits (helper). -/
theorem ctrl_rmw_bits : ∀ c < 256, ∀ r < 4,
    ((c &&& 252) ||| (r &&& 3)) % 4 = r ∧
    ((c &&& 252) ||| (r &&& 3)) / 4 = c / 4 ∧
    Nat.testBit ((c &&& 252) ||| (r &&& 3)) 7 = Nat.testBit c 7 ∧
    Nat.testBit ((c &&& 252) ||| (r &&& 3)) 4 = Nat.testBit c 4 := by decide

set_option maxRecDepth 10000 in
/-- When the stored rate bits already equal the requested ones, the stored
low two bits are the requested value (helper). -/
theorem ctrl_skip_bits : ∀ c < 256, ∀ r < 4, c &&& 3 = r &&& 3 → c % 4 = r := by
  decide

/-- C8: `ds1307_set_rate_select` leaves the OUT bit (bit 7), the SQWE bit
(bit 4) and every other bit outside the low two unchanged, sets the low two
bits to `rs`, and any write it issues carries the byte
`(original & ~0x3) | (rs & 0x3)`. -/
theorem claim_c8_rate_select_frame (hd : ds1307_t) (regs : Regs) (rs : Nat)
    (hrs : rs < 4) (hc : regs.ctrl < 256) :
    ∃ c₂, (ds1307_set_rate_select (some hd) rs regs).1 = .ok { regs with ctrl := c₂ } ∧
      c₂ % 4 = rs ∧ c₂ / 4 = regs.ctrl / 4 ∧
      c₂.testBit 7 = regs.ctrl.testBit 7 ∧ c₂.testBit 4 = regs.ctrl.testBit 4 ∧
      ((ds1307_set_rate_select (some hd) rs regs).2 = [.read 7 1] ∨
       (ds1307_set_rate_select (some hd) rs regs).2 =
         [.read 7 1, .write [7, (regs.ctrl &&& 252) ||| (rs &&& 3)]]) := by
  have hx : (255 ^^^ 252 : Nat) = 3 := by decide
  by_cases h : regs.ctrl &&& 3 = rs &&& 3
  · refine ⟨regs.ctrl, ?_, ctrl_skip_bits regs.ctrl hc rs hrs h, rfl, rfl, rfl, .inl ?_⟩
    · simp [ds1307_set_rate_select, set_reg, Regs.get, CTRL_RS_MASK, hx, h]
    · simp [ds1307_set_rate_select, set_reg, Regs.get, CTRL_RS_MASK, hx, h]
  · obtain ⟨h1, h2, h3, h4⟩ := ctrl_rmw_bits regs.ctrl hc rs hrs
    refine ⟨(regs.ctrl &&& 252) ||| (rs &&& 3), ?_, h1, h2, h3, h4, .inr ?_⟩
    · simp [ds1307_set_rate_select, set_reg, Regs.get, Regs.set, CTRL_RS_MASK, hx, h]
    · simp [ds1307_set_rate_select, set_reg, Regs.get, CTRL_RS_MASK, hx, h]

/-- C8 witness: the frame property evaluated at control byte 0x93
(OUT set, SQWE clear, rate bits 11) and requested rate 2. -/
theorem claim_c8_rate_select_frame_witness :
    2 < 4 ∧ (147 : Nat) < 256 ∧
    ∃ c₂, (ds1307_set_rate_select (some ⟨100⟩) 2
        ⟨0, 0, 0, 0, 0, 0, 0, 147⟩).1 =
        .ok { (⟨0, 0, 0, 0, 0, 0, 0, 147⟩ : Regs) with ctrl := c₂ } ∧
      c₂ % 4 = 2 ∧ c₂ / 4 = 147 / 4 ∧
      c₂.testBit 7 = Nat.testBit 147 7 ∧ c₂.testBit 4 = Nat.testBit 147 4 ∧
      ((ds1307_set_rate_select (some ⟨100⟩) 2 ⟨0, 0, 0, 0, 0, 0, 0, 147⟩).2 =
         [.read 7 1] ∨
       (ds1307_set_rate_select (some ⟨100⟩) 2 ⟨0, 0, 0, 0, 0, 0, 0, 147⟩).2 =
         [.read 7 1, .write [7, (147 &&& 252) ||| (2 &&& 3)]]) :=
  ⟨by decide, by decide,
   claim_c8_rate_select_frame ⟨100⟩ ⟨0, 0, 0, 0, 0, 0, 0, 147⟩ 2 (by decide) (by decide)⟩

/-- C10: the raw-data view clears the CH bit out of the seconds field, and
in 12-hour mode masks the hour field to its low 5 bits, reporting the mode
and AM/PM flags only through `hour_12` and `hour_pm`; in 24-hour mode those
two flag fields stay at their zeroed initial value. -/
theorem claim_c10_raw_view_masks (hd : ds1307_t) (regs : Regs) :
    ∃ d, (ds1307_get_data (some hd) true regs).1 = .ok d ∧
      d.second = regs.sec &&& 127 ∧ d.second.testBit 7 = false ∧
      (regs.hour &&& 64 ≠ 0 →
        d.hour = regs.hour &&& 31 ∧ d.hour < 32 ∧ d.hour_12 = 1 ∧
        d.hour_pm = (if regs.hour &&& 32 ≠ 0 then 1 else 0)) ∧
      (regs.hour &&& 64 = 0 → d.hour = regs.hour ∧ d.hour_12 = 0 ∧ d.hour_pm = 0) ∧
      d.minute = regs.min ∧ d.day = regs.day ∧ d.date = regs.date ∧
      d.month = regs.mon ∧ d.year = regs.year := by
  have hsec : (regs.sec &&& 127).testBit 7 = false := by
    rw [Nat.testBit_and]
    simp [show Nat.testBit 127 7 = false from by decide]
  by_cases hm : regs.hour &&& 64 = 0
  · refine ⟨⟨regs.sec &&& 127, regs.min, regs.hour, regs.day, regs.date,
        regs.mon, regs.year, 0, 0⟩, ?_, rfl, hsec, fun hc => absurd hm hc,
      fun _ => ⟨rfl, rfl, rfl⟩, rfl, rfl, rfl, rfl, rfl⟩
    simp [ds1307_get_data, HOUR_12_BIT, SEC_MASK, hm]
  · refine ⟨⟨regs.sec &&& 127, regs.min, regs.hour &&& 31, regs.day, regs.date,
        regs.mon, regs.year, 1, if regs.hour &&& 32 ≠ 0 then 1 else 0⟩, ?_, rfl,
      hsec, fun _ => ⟨rfl, ?_, rfl, rfl⟩, fun hc => absurd hc hm,
      rfl, rfl, rfl, rfl, rfl⟩
    · simp [ds1307_get_data, HOUR_12_BIT, HOUR_12_MASK, HOUR_PM_BIT, SEC_MASK, hm]
    · exact lt_of_le_of_lt Nat.and_le_right (by decide : (31 : Nat) < 32)

/-- A single-bit mask extracts either zero or the bit itself (helper). -/
theorem and_two_pow_cases (x i : Nat) : x &&& 2 ^ i = 0 ∨ x &&& 2 ^ i = 2 ^ i := by
  rw [Nat.and_two_pow]
  cases x.testBit i <;> simp

/-- Bit 7 of any value is either clear or set as a mask (helper). -/
theorem and128_cases (x : Nat) : x &&& 128 = 0 ∨ x &&& 128 = 128 := by
  have h := and_two_pow_cases x 7
  norm_num at h
  exact h

/-- Bit 6 of any value is either clear or set as a mask (helper). -/
theorem and64_cases (x : Nat) : x &&& 64 = 0 ∨ x &&& 64 = 64 := by
  have h := and_two_pow_cases x 6
  norm_num at h
  exact h

/-- A 7-bit value has bit 7 clear (helper). -/
theorem and127_bit7 : ∀ w ≤ 127, w &&& 128 = 0 := by decide

/-- For a valid hour, the 24-hour BCD encoding has the mode bit clear and
the 12-hour encoding has it set (helper). -/
theorem hour_mode_bits : ∀ y < 24, int2bcd y &&& 64 = 0 ∧ to_12_hour y &&& 64 = 64 := by
  decide

/-- C3: `ds1307_set_datetime` reads back seconds..hours first, and the
7-byte image it writes keeps the prior CH bit in the seconds register and
the prior 12/24 mode bit in the hours register, encoding the input hour in
12-hour or 24-hour form according to that read-back mode bit. -/
theorem claim_c3_set_datetime_preserves_flags (hd : ds1307_t) (t : Tm) (regs : Regs)
    (h0 : 0 ≤ t.tm_hour) (h24 : t.tm_hour < 24) :
    ∃ regs₂, ds1307_set_datetime (some hd) (some t) regs =
        (.ok regs₂, [.read 0 3, .write [0, regs₂.sec, regs₂.min, regs₂.hour,
          regs₂.day, regs₂.date, regs₂.mon, regs₂.year]]) ∧
      regs₂.sec &&& 128 = regs.sec &&& 128 ∧
      regs₂.hour &&& 64 = regs.hour &&& 64 ∧
      (regs.hour &&& 64 ≠ 0 → regs₂.hour = to_12_hour (toByte t.tm_hour)) ∧
      (regs.hour &&& 64 = 0 → regs₂.hour = int2bcd (toByte t.tm_hour)) := by
  have hb : toByte t.tm_hour < 24 := by unfold toByte; omega
  obtain ⟨hbcd, h12⟩ := hour_mode_bits _ hb
  refine ⟨⟨(int2bcd (toByte t.tm_sec) &&& SEC_MASK) ||| (regs.sec &&& SEC_CH_BIT),
      int2bcd (toByte t.tm_min),
      if regs.hour &&& HOUR_12_BIT ≠ 0 then to_12_hour (toByte t.tm_hour)
        else int2bcd (toByte t.tm_hour),
      int2bcd (toByte (t.tm_wday + 1)), int2bcd (toByte t.tm_mday),
      int2bcd (toByte (t.tm_mon + 1)),
      int2bcd (toByte (if Int.tmod t.tm_year 100 < 0 then Int.tmod t.tm_year 100 + 100
        else Int.tmod t.tm_year 100)),
      regs.ctrl⟩, rfl, ?_, ?_, ?_, ?_⟩
  · rcases and128_cases regs.sec with hc | hc <;>
      simp only [SEC_MASK, SEC_CH_BIT] <;> rw [show (0x80 : Nat) = 128 from rfl, hc]
    · rw [Nat.or_zero]
      exact and127_bit7 _ Nat.and_le_right
    · exact or128_and128 _ Nat.and_le_right
  · by_cases hm : regs.hour &&& 64 = 0
    · simp only [HOUR_12_BIT, show (0x40 : Nat) = 64 from rfl, hm]
      simpa using hbcd
    · have hm64 : regs.hour &&& 64 = 64 := (and64_cases regs.hour).resolve_left hm
      simp only [HOUR_12_BIT, show (0x40 : Nat) = 64 from rfl, hm64]
      simpa using h12
  · intro hm
    simp only [HOUR_12_BIT, show (0x40 : Nat) = 64 from rfl]
    exact if_pos hm
  · intro hm
    simp [HOUR_12_BIT, show (0x40 : Nat) = 64 from rfl, hm]

/-- C3 witness: the flag preservation evaluated on a CH-set, 12-hour-mode
image with the time 15:45:30, Wednesday 2025-06-27 (month 5 zero-based). -/
theorem claim_c3_set_datetime_preserves_flags_witness :
    (0 : Int) ≤ 15 ∧ (15 : Int) < 24 ∧
    ∃ regs₂, ds1307_set_datetime (some ⟨100⟩) (some ⟨30, 45, 15, 27, 5, 125, 3⟩)
        ⟨128, 0, 64, 0, 0, 0, 0, 0⟩ =
        (.ok regs₂, [.read 0 3, .write [0, regs₂.sec, regs₂.min, regs₂.hour,
          regs₂.day, regs₂.date, regs₂.mon, regs₂.year]]) ∧
      regs₂.sec &&& 128 = (128 : Nat) &&& 128 ∧
      regs₂.hour &&& 64 = (64 : Nat) &&& 64 ∧
      ((64 : Nat) &&& 64 ≠ 0 → regs₂.hour = to_12_hour (toByte 15)) ∧
      ((64 : Nat) &&& 64 = 0 → regs₂.hour = int2bcd (toByte 15)) :=
  ⟨by decide, by decide,
   claim_c3_set_datetime_preserves_flags ⟨100⟩ ⟨30, 45, 15, 27, 5, 125, 3⟩
     ⟨128, 0, 64, 0, 0, 0, 0, 0⟩ (by decide) (by decide)⟩

/-- BCD encode then decode is the identity on a valid hour (helper). -/
theorem bcd_round_trip_24 : ∀ y < 24, bcd2int (int2bcd y) = y := by decide

/-- C9: from a valid 24-hour image, `ds1307_set_12_hour true` re-encodes
the stored hour through the 12-hour codec and writes it; reading the mode
back yields true, the logical hour of day is unchanged, and a repeated
request with the mode already set issues only the read, no write. -/
theorem claim_c9_mode_switch_preserves_hour (hd : ds1307_t) (regs : Regs) (h : Nat)
    (hlt : h < 24) (hreg : regs.hour = int2bcd h) :
    ds1307_set_12_hour (some hd) true regs =
      (.ok { regs with hour := to_12_hour h }, [.read 2 1, .write [2, to_12_hour h]]) ∧
    (ds1307_get_12_hour (some hd) true { regs with hour := to_12_hour h }).1 = .ok true ∧
    from_12_hour (to_12_hour h) = h ∧
    ds1307_set_12_hour (some hd) true { regs with hour := to_12_hour h } =
      (.ok { regs with hour := to_12_hour h }, [.read 2 1]) := by
  obtain ⟨hb0, hb64⟩ := hour_mode_bits h hlt
  refine ⟨?_, ?_, round_trip_12 h hlt, ?_⟩
  · simp [ds1307_set_12_hour, HOUR_12_BIT, hreg, hb0, bcd_round_trip_24 h hlt]
  · simp [ds1307_get_12_hour, HOUR_12_BIT, hb64]
  · simp [ds1307_set_12_hour, HOUR_12_BIT, hb64]

/-- C9 witness: switching a 24-hour image holding 15:00 to 12-hour mode;
the rewritten hours register decodes to raw hour 3 with the PM bit set. -/
theorem claim_c9_mode_switch_preserves_hour_witness :
    15 < 24 ∧ (Regs.hour ⟨0, 0, 21, 0, 0, 0, 0, 0⟩ = int2bcd 15) ∧
    (ds1307_set_12_hour (some ⟨100⟩) true ⟨0, 0, 21, 0, 0, 0, 0, 0⟩ =
      (.ok { (⟨0, 0, 21, 0, 0, 0, 0, 0⟩ : Regs) with hour := to_12_hour 15 },
       [.read 2 1, .write [2, to_12_hour 15]]) ∧
     (ds1307_get_12_hour (some ⟨100⟩) true
        { (⟨0, 0, 21, 0, 0, 0, 0, 0⟩ : Regs) with hour := to_12_hour 15 }).1 = .ok true ∧
     from_12_hour (to_12_hour 15) = 15 ∧
     ds1307_set_12_hour (some ⟨100⟩) true
        { (⟨0, 0, 21, 0, 0, 0, 0, 0⟩ : Regs) with hour := to_12_hour 15 } =
      (.ok { (⟨0, 0, 21, 0, 0, 0, 0, 0⟩ : Regs) with hour := to_12_hour 15 },
       [.read 2 1])) ∧
    to_12_hour 15 &&& 31 = 3 ∧ to_12_hour 15 &&& 32 = 32 :=
  ⟨by decide, by decide,
   claim_c9_mode_switch_preserves_hour ⟨100⟩ ⟨0, 0, 21, 0, 0, 0, 0, 0⟩ 15
     (by decide) (by decide), by decide, by decide⟩
